import Mathlib

/-!
# Histogram host program (`04-pipe-false-dep/project/src/host.cpp`)

A shallow embedding of `main`: the test-data phase (lines 47-58), the device
acquisition loop (lines 68-88), the checked runtime calls (lines 93-112) and
the equivalence check (lines 115-128), followed by the properties of the
specification that concern them.

Conventions.
* `unsigned int` counters are naturals reduced modulo `2^32` at every update.
* A `char` sample is the integer that `source_image[i]` evaluates to.  Whether
  plain `char` is signed is fixed by the platform ABI, so the conversion from
  the `int` returned by `std::rand` takes it as a parameter.
* A subscript outside a vector has no defined behaviour.  A write outside
  `source_hist_sw` makes the test-data phase return `none`.  A read outside is
  answered by the environment (`Beyond`): `none` when the access has no
  result, `some w` when adjacent storage holds the word `w`.
-/

namespace Host

/-! ## Constants -/

/-- Line 20: `#define IMAGE_SIZE 4096`. -/
def IMAGE_SIZE : Nat := 4096

/-- Line 21: `#define HISTOGRAM_SIZE 256`. -/
def HISTOGRAM_SIZE : Nat := 256

/-- Value of `EXIT_SUCCESS` from `<cstdlib>`. -/
def EXIT_SUCCESS : Nat := 0

/-- Value of `EXIT_FAILURE` from `<cstdlib>`. -/
def EXIT_FAILURE : Nat := 1

/-- Number of values of an `unsigned int` counter. -/
def UINT_RANGE : Nat := 2 ^ 32

/-- Number of values of `size_t`, the subscript type of `std::vector`. -/
def SIZE_RANGE : Nat := 2 ^ 64

/-! ## Test data (lines 47-58) -/

/-- Conversion of an `int` to plain `char` (the assignment performed by
`std::generate` at line 52): the low eight bits, read as a two's-complement
value when `char` is signed. -/
def toChar (charSigned : Bool) (r : Int) : Int :=
  let b := r % 256
  if charSigned && decide (128 ≤ b) then b - 256 else b

/-- Conversion of a `char` to the `size_t` parameter of `operator[]`
(line 58): reduction modulo `2^64`. -/
def toSizeT (c : Int) : Nat := (c % (SIZE_RANGE : Int)).toNat

/-- Line 52: `std::generate(source_image.begin(), source_image.end(), std::rand)`;
`rand i` is the result of the `i`-th call of `std::rand`. -/
def generateImage (charSigned : Bool) (rand : Nat → Nat) : List Int :=
  (List.range IMAGE_SIZE).map (fun i => toChar charSigned (rand i))

/-- Lines 53-56 as far as `source_hist_sw` (and `source_hist_hw`) go: every
one of the `HISTOGRAM_SIZE` counters is set to zero. -/
def zeroHistogram : List Nat := List.replicate HISTOGRAM_SIZE 0

/-- Line 58, one iteration: `source_hist_sw[c] += 1` for the sample `c`.
The subscript is `c` converted to `size_t`; outside the vector the statement
has no defined behaviour (`none`). -/
def increment (hist : List Nat) (c : Int) : Option (List Nat) :=
  if h : toSizeT c < hist.length then
    some (hist.set (toSizeT c) ((hist[toSizeT c] + 1) % UINT_RANGE))
  else none

/-- The counting step of line 58 applied to a sequence of samples, one
after the other. -/
def countSamples : List Int → List Nat → Option (List Nat)
  | [], hist => some hist
  | c :: rest, hist =>
    match increment hist c with
    | none => none
    | some hist1 => countSamples rest hist1

/-- Lines 57-58: `for(int i = 0; i < IMAGE_SIZE; i++)
source_hist_sw[source_image[i]] += 1;`, with `remaining` iterations left
before the loop condition fails and `i` the loop counter.  A read outside
`source_image` has no defined behaviour (`none`). -/
def countLoop (image : List Int) : Nat → Nat → List Nat → Option (List Nat)
  | 0, _, hist => some hist
  | remaining + 1, i, hist =>
    match image[i]? with
    | none => none
    | some c =>
      match increment hist c with
      | none => none
      | some hist1 => countLoop image remaining (i + 1) hist1

/-- Lines 53-58: the reference histogram `source_hist_sw` of an image. -/
def referenceHistogram (image : List Int) : Option (List Nat) :=
  countLoop image IMAGE_SIZE 0 zeroHistogram

/-! ## Observable behaviour -/

/-- The checked runtime calls of lines 93-111, in program order. -/
inductive Call
  | bufferImage
  | bufferHist
  | setArg0
  | setArg1
  | setArg2
  | migrateToDevice
  | enqueueTask
  | migrateToHost
  deriving DecidableEq, Repr

/-- What a run of `main` does that can be observed from outside. -/
inductive Event
  /-- Characters written to `std::cout`. -/
  | print (text : String)
  /-- Line 52: the input buffer is filled from `std::rand`. -/
  | generate
  /-- Line 63: `xcl::get_xil_devices()`. -/
  | getDevices
  /-- Line 66: `xcl::read_binary_file(binaryFile)`. -/
  | readBinary (path : String)
  /-- Line 72: `cl::Context` for device `i`. -/
  | createContext (i : Nat)
  /-- Line 73: `cl::CommandQueue` for device `i`. -/
  | createQueue (i : Nat)
  /-- Line 75: `cl::Program` for device `i`, the programming attempt. -/
  | createProgram (i : Nat)
  /-- Line 80: `cl::Kernel` on the program of device `i`. -/
  | createKernel (i : Nat)
  /-- One of the checked calls of lines 93-111. -/
  | call (c : Call)
  /-- Line 112: `q.finish()`. -/
  | finish
  /-- The diagnostic of a failed `OCL_CHECK`. -/
  | checkFailed
  deriving DecidableEq, Repr

/-- How a run ends: the exit status of the process, or behaviour the
language does not define. -/
inductive Status
  | exit (code : Nat)
  | undefined
  deriving DecidableEq, Repr

/-- A run: what it did, and how it ended. -/
structure Outcome where
  trace : List Event
  status : Status
  deriving DecidableEq, Repr

/-! ## Device acquisition (lines 68-88) -/

/-- One entry of the vector returned by `xcl::get_xil_devices()`, with the
result of each runtime call that `main` makes on it. -/
structure Device where
  /-- Result of `device.getInfo<CL_DEVICE_NAME>()`. -/
  name : String
  /-- Line 72 leaves `err == CL_SUCCESS`. -/
  contextOk : Bool
  /-- Line 73 leaves `err == CL_SUCCESS`. -/
  queueOk : Bool
  /-- Line 75 leaves `err == CL_SUCCESS`: the device was programmed. -/
  programOk : Bool
  /-- Line 80 leaves `err == CL_SUCCESS`. -/
  kernelOk : Bool
  deriving DecidableEq, Repr

/-- How the loop of lines 69-84 ends. -/
inductive Acquired
  /-- `valid_device = true; break` at device `i`. -/
  | valid (i : Nat)
  /-- The loop ran past the last device with `valid_device` still false. -/
  | noDevice
  /-- An `OCL_CHECK` inside the loop ended the process. -/
  | aborted
  deriving DecidableEq, Repr

/-- Modelled from the spec: the macro `OCL_CHECK(err, call)` comes from
`xcl2.hpp`, which is not part of the sources.  Section 7 (d) of the
specification: a failing runtime call aborts the run immediately with
diagnostic output; `ok` tells whether the call left `err == CL_SUCCESS`, and
the result is the events of the call together with whether the run goes on. -/
def oclCheck (ok : Bool) (call : Event) : List Event × Bool :=
  if ok then ([call], true) else ([call, Event.checkFailed], false)

/-- Lines 69-84: the loop over `devices`, from index `i` on.  The counter
is an `unsigned int` compared with `devices.size()`; the runtime counts its
devices in a `cl_uint`, so the counter reaches every index without wrapping. -/
def acquireLoop : List Device → Nat → List Event × Acquired
  | [], _ => ([], Acquired.noDevice)
  | d :: rest, i =>
    let c := oclCheck d.contextOk (Event.createContext i)
    if !c.2 then (c.1, Acquired.aborted) else
    let q := oclCheck d.queueOk (Event.createQueue i)
    if !q.2 then (c.1 ++ q.1, Acquired.aborted) else
    let attempt := c.1 ++ q.1 ++
      [Event.print ("Trying to program device[" ++ toString i ++ "]: " ++ d.name ++ "\n"),
       Event.createProgram i]
    if !d.programOk then
      let next := acquireLoop rest (i + 1)
      (attempt ++
        Event.print ("Failed to program device[" ++ toString i ++ "] with xclbin file!\n")
          :: next.1, next.2)
    else
      let k := oclCheck d.kernelOk (Event.createKernel i)
      let done := attempt ++
        Event.print ("Device[" ++ toString i ++ "]: program successful!\n") :: k.1
      if !k.2 then (done, Acquired.aborted) else (done, Acquired.valid i)

/-! ## Checked runtime calls (lines 93-112) -/

/-- Lines 93-111 in program order. -/
def hostCalls : List Call :=
  [Call.bufferImage, Call.bufferHist, Call.setArg0, Call.setArg1, Call.setArg2,
   Call.migrateToDevice, Call.enqueueTask, Call.migrateToHost]

/-- A sequence of `OCL_CHECK`ed calls: each is made in turn, the first one
that fails ends the process. -/
def runChecked (callOk : Call → Bool) : List Call → List Event × Bool
  | [] => ([], true)
  | c :: cs =>
    let r := oclCheck (callOk c) (Event.call c)
    if !r.2 then (r.1, false) else
    let rest := runChecked callOk cs
    (r.1 ++ rest.1, rest.2)

/-! ## Equivalence check (lines 115-128) -/

/-- Storage past the end of the two histogram vectors: what a subscript
`i >= HISTOGRAM_SIZE` fetches from `source_hist_sw` and `source_hist_hw`.
`none`: the access has no result. -/
structure Beyond where
  sw : Nat → Option Nat
  hw : Nat → Option Nat

/-- No access past the end has a result (the language definition). -/
def Beyond.nothing : Beyond := ⟨fun _ => none, fun _ => none⟩

/-- Both vectors are followed by zero-filled readable storage. -/
def Beyond.zeros : Beyond := ⟨fun _ => some 0, fun _ => some 0⟩

/-- Evaluation of `v[i]` as an rvalue. -/
def subscript (v : List Nat) (past : Nat → Option Nat) (i : Nat) : Option Nat :=
  if i < v.length then v[i]? else past i

/-- How the loop of lines 117-125 ends. -/
inductive ScanResult
  /-- The loop condition became false with `match` still true. -/
  | allEqual
  /-- `match = false; break` at index `i`, with both values read there. -/
  | mismatch (i cpu dev : Nat)
  /-- The comparison at index `i` read outside defined storage. -/
  | undefinedRead (i : Nat)
  deriving DecidableEq, Repr

/-- The loop of lines 117-125 together with the indices at which it
evaluated `source_hist_sw[i] != source_hist_hw[i]`, in order. -/
structure Scan where
  examined : List Nat
  result : ScanResult
  deriving DecidableEq, Repr

/-- Lines 117-125: `for(int i = 0; i < IMAGE_SIZE; i++)`, with `remaining`
iterations left before the loop condition fails and `i` the loop counter. -/
def compareLoop (sw hw : List Nat) (mem : Beyond) : Nat → Nat → Scan
  | 0, _ => ⟨[], ScanResult.allEqual⟩
  | remaining + 1, i =>
    match subscript sw mem.sw i, subscript hw mem.hw i with
    | some a, some b =>
      if a ≠ b then ⟨[i], ScanResult.mismatch i a b⟩
      else
        let s := compareLoop sw hw mem remaining (i + 1)
        ⟨i :: s.examined, s.result⟩
    | _, _ => ⟨[i], ScanResult.undefinedRead i⟩

/-- Lines 116-125: the scan as `main` starts it. -/
def compareHistograms (sw hw : List Nat) (mem : Beyond) : Scan :=
  compareLoop sw hw mem IMAGE_SIZE 0

/-- Lines 116-128: the comparison, the verdict line and the return value. -/
def equivalenceCheck (sw hw : List Nat) (mem : Beyond) : Outcome :=
  match (compareHistograms sw hw mem).result with
  | ScanResult.allEqual =>
    ⟨[Event.print "TEST PASSED\n"], Status.exit EXIT_SUCCESS⟩
  | ScanResult.mismatch i cpu dev =>
    ⟨[Event.print "Error: Result mismatch\n",
      Event.print ("i = " ++ toString i ++ " CPU result = " ++ toString cpu
        ++ " Device result = " ++ toString dev ++ "\n"),
      Event.print "TEST FAILED\n"], Status.exit EXIT_FAILURE⟩
  | ScanResult.undefinedRead _ => ⟨[], Status.undefined⟩

/-! ## The program -/

/-- Everything outside the program that a run depends on. -/
structure Env where
  /-- Plain `char` is a signed type on this platform. -/
  charSigned : Bool
  /-- Result of the `i`-th call of `std::rand`. -/
  rand : Nat → Nat
  /-- Result of `xcl::get_xil_devices()`. -/
  devices : List Device
  /-- Whether each checked call of lines 93-111 succeeds. -/
  callOk : Call → Bool
  /-- The word the accelerator leaves in bucket `i` of `source_hist_hw`. -/
  kernelOut : Nat → Nat
  /-- Storage past the end of the histogram vectors. -/
  beyond : Beyond

/-- Contents of `source_hist_hw` after line 112: `HISTOGRAM_SIZE` counters
of type `unsigned int`. -/
def deviceHistogram (env : Env) : List Nat :=
  (List.range HISTOGRAM_SIZE).map (fun i => env.kernelOut i % UINT_RANGE)

/-- Lines 60-128, reached with the reference histogram `sw`. -/
def hostCode (binaryFile : String) (sw : List Nat) (env : Env) : Outcome :=
  let acq := acquireLoop env.devices 0
  let found := [Event.getDevices, Event.readBinary binaryFile] ++ acq.1
  match acq.2 with
  | Acquired.aborted => ⟨found, Status.exit EXIT_FAILURE⟩
  | Acquired.noDevice =>
    ⟨found ++ [Event.print "Failed to program any device found, exit!\n"],
      Status.exit EXIT_FAILURE⟩
  | Acquired.valid _ =>
    let run := runChecked env.callOk hostCalls
    if !run.2 then ⟨found ++ run.1, Status.exit EXIT_FAILURE⟩ else
    let check := equivalenceCheck sw (deviceHistogram env) env.beyond
    ⟨found ++ run.1 ++ Event.finish :: check.trace, check.status⟩

/-- Lines 23-129: `main`, started as `prog args...` (so `argc` is
`args.length + 1` and `argv[0]` is `prog`). -/
def main (prog : String) (args : List String) (env : Env) : Outcome :=
  match args with
  | [binaryFile] =>
    match referenceHistogram (generateImage env.charSigned env.rand) with
    | none => ⟨[Event.generate], Status.undefined⟩
    | some sw =>
      let rest := hostCode binaryFile sw env
      ⟨Event.generate :: rest.trace, rest.status⟩
  | _ => ⟨[Event.print ("Usage: " ++ prog ++ " <XCLBIN File>\n")], Status.exit EXIT_FAILURE⟩


/-- A device on which every runtime call succeeds except programming. -/
def Device.failing (name : String) : Device := ⟨name, true, true, false, true⟩

/-- A device on which every runtime call succeeds. -/
def Device.working (name : String) : Device := ⟨name, true, true, true, true⟩

/-- A run environment on a signed-`char` platform: `std::rand` returns 0
every time, every checked call of lines 93-111 succeeds, the accelerator
returns the histogram of the all-zero image (4096 in bucket 0), and the
storage past the end of the histogram vectors is readable and zero. -/
def Env.sample (devices : List Device) : Env :=
  ⟨true, fun _ => 0, devices, fun _ => true, fun i => if i = 0 then 4096 else 0,
    Beyond.zeros⟩

/-- Indices of the devices on which programming was attempted (line 75), in
the order of the attempts. -/
def programmingAttempts : List Event → List Nat
  | [] => []
  | Event.createProgram i :: rest => i :: programmingAttempts rest
  | _ :: rest => programmingAttempts rest

/-- The event belongs to what follows device acquisition: buffer allocation,
argument binding, transfers and the kernel run (lines 93-112), or the verdict
line of the comparison (line 127). -/
def Event.afterAcquisition : Event → Bool
  | Event.call _ => true
  | Event.finish => true
  | Event.print text => text == "TEST PASSED\n" || text == "TEST FAILED\n"
  | _ => false

/-! ## The counting loop on samples inside `0..255` -/

/-- A sample inside the histogram converts to itself as a subscript. -/
theorem toSizeT_of_inRange (c : Int) (h0 : 0 ≤ c) (h1 : c < 256) :
    toSizeT c = c.toNat := by
  unfold toSizeT SIZE_RANGE
  rw [Int.emod_eq_of_lt h0 (by norm_num; omega)]

/-- One counting step on a sample inside the vector, while the counter
is below the largest `unsigned int`: the counter goes up by one. -/
theorem increment_inRange (hist : List Nat) (c : Int) (h0 : 0 ≤ c) (h1 : c < 256)
    (hlen : hist.length = HISTOGRAM_SIZE)
    (hroom : ∀ x ∈ hist, x + 1 < UINT_RANGE) :
    increment hist c = some (hist.set c.toNat (hist.getD c.toNat 0 + 1)) := by
  have hk : c.toNat < hist.length := by
    rw [hlen]; unfold HISTOGRAM_SIZE; omega
  have hget : hist.getD c.toNat 0 = hist[c.toNat] := by
    simp [List.getD_eq_getElem?_getD, List.getElem?_eq_getElem hk]
  have hx : hist[c.toNat] + 1 < UINT_RANGE := hroom _ (List.getElem_mem hk)
  unfold increment
  rw [toSizeT_of_inRange c h0 h1, dif_pos hk, hget, Nat.mod_eq_of_lt hx]

/-- Adding one to a counter adds one to the sum of the counters. -/
theorem sum_set_succ (l : List Nat) (k : Nat) (hk : k < l.length) :
    (l.set k (l.getD k 0 + 1)).sum = l.sum + 1 := by
  induction l generalizing k with
  | nil => simp at hk
  | cons x xs ih =>
    cases k with
    | zero => simp; omega
    | succ n =>
      have hn : n < xs.length := by simpa using hk
      have := ih n hn
      simp only [List.set_cons_succ, List.sum_cons, List.getD_cons_succ]
      omega

/-- The counting loop reads the samples `i, i+1, ...` of the image in order:
while they are all inside `source_image` it is the counting step applied to
that stretch of samples. -/
theorem countLoop_eq_countSamples (image : List Int) (n : Nat) :
    ∀ (i : Nat) (hist : List Nat), i + n ≤ image.length →
      countLoop image n i hist = countSamples ((image.drop i).take n) hist := by
  induction n with
  | zero => intro i hist _; simp [countLoop, countSamples]
  | succ n ih =>
    intro i hist hin
    have hi : i < image.length := by omega
    rw [List.drop_eq_getElem_cons hi, List.take_succ_cons]
    unfold countLoop countSamples
    rw [List.getElem?_eq_getElem hi]
    cases hstep : increment hist image[i] with
    | none => simp only [hstep]
    | some hist1 =>
      simp only [hstep]
      exact ih (i + 1) hist1 (by omega)

/-- The reference histogram of an image of `IMAGE_SIZE` samples is the
counting step applied to all its samples, from zeroed counters. -/
theorem referenceHistogram_eq_countSamples (image : List Int)
    (hlen : image.length = IMAGE_SIZE) :
    referenceHistogram image = countSamples image zeroHistogram := by
  unfold referenceHistogram
  rw [countLoop_eq_countSamples image IMAGE_SIZE 0 zeroHistogram (by omega),
    List.drop_zero, ← hlen, List.take_length]

/-- The counting steps on samples that all lie in `0..255`, started from
counters with room for one increment per sample: it completes, keeps the
vector at `HISTOGRAM_SIZE` counters, adds to counter `v` the number of samples
equal to `v`, and adds the number of samples to the sum of the counters. -/
theorem countSamples_exact (image : List Int) (hist : List Nat)
    (hlen : hist.length = HISTOGRAM_SIZE)
    (hin : ∀ c ∈ image, 0 ≤ c ∧ c < 256)
    (hroom : ∀ x ∈ hist, x + image.length < UINT_RANGE) :
    ∃ h, countSamples image hist = some h ∧ h.length = HISTOGRAM_SIZE ∧
      (∀ v : Nat, h.getD v 0 = hist.getD v 0 + image.count (v : Int)) ∧
      h.sum = hist.sum + image.length := by
  induction image generalizing hist with
  | nil => exact ⟨hist, rfl, hlen, by simp, by simp⟩
  | cons c rest ih =>
    obtain ⟨h0, h1⟩ := hin c (List.mem_cons_self _ _)
    have hk : c.toNat < hist.length := by
      rw [hlen]; unfold HISTOGRAM_SIZE; omega
    have hstep := increment_inRange hist c h0 h1 hlen (fun x hx => by
      have := hroom x hx
      simp only [List.length_cons] at this
      omega)
    have hroom1 : ∀ x ∈ hist.set c.toNat (hist.getD c.toNat 0 + 1),
        x + rest.length < UINT_RANGE := by
      intro x hx
      rcases List.mem_or_eq_of_mem_set hx with hmem | heq
      · have := hroom x hmem
        simp only [List.length_cons] at this
        omega
      · have hget : hist.getD c.toNat 0 = hist[c.toNat] := by
          simp [List.getD_eq_getElem?_getD, List.getElem?_eq_getElem hk]
        have := hroom _ (List.getElem_mem hk)
        simp only [List.length_cons] at this
        omega
    obtain ⟨h, hrun, hl, hcount, hsum⟩ :=
      ih (hist.set c.toNat (hist.getD c.toNat 0 + 1)) (by simpa using hlen)
        (fun d hd => hin d (List.mem_cons_of_mem _ hd)) hroom1
    refine ⟨h, ?_, hl, ?_, ?_⟩
    · simp only [countSamples, hstep, hrun]
    · intro v
      rw [hcount v]
      by_cases hv : (v : Int) = c
      · have hvk : c.toNat = v := by omega
        have hv2 : v < hist.length := hvk ▸ hk
        rw [hvk, ← hv, List.count_cons_self]
        simp [List.getD_eq_getElem?_getD, List.getElem?_set, hv2]
        omega
      · have hvk : c.toNat ≠ v := by omega
        rw [List.count_cons_of_ne hv]
        simp [List.getD_eq_getElem?_getD, List.getElem?_set, hvk]
    · rw [hsum, sum_set_succ hist c.toNat hk]
      simp only [List.length_cons]
      omega

/-- The zeroed histogram has `HISTOGRAM_SIZE` counters. -/
theorem zeroHistogram_length : zeroHistogram.length = HISTOGRAM_SIZE := by
  simp [zeroHistogram]

/-- Every counter of the zeroed histogram is zero. -/
theorem zeroHistogram_getD (v : Nat) : zeroHistogram.getD v 0 = 0 := by
  unfold zeroHistogram
  by_cases hv : v < HISTOGRAM_SIZE
  · simp [List.getD_eq_getElem?_getD, List.getElem?_replicate, hv]
  · simp [List.getD_eq_getElem?_getD, List.getElem?_replicate, hv]

/-- The counters of the zeroed histogram add up to zero. -/
theorem zeroHistogram_sum : zeroHistogram.sum = 0 := by
  simp [zeroHistogram]

/-- Reference histogram of an image of `IMAGE_SIZE` samples that all lie in
`0..255`: it is defined, has `HISTOGRAM_SIZE` counters, counter `v` is the
number of samples equal to `v` (as a natural number, so nothing wrapped
modulo `2^32`), and the counters add up to `IMAGE_SIZE`. -/
theorem referenceHistogram_exact (image : List Int)
    (hlen : image.length = IMAGE_SIZE)
    (hin : ∀ c ∈ image, 0 ≤ c ∧ c < 256) :
    ∃ h, referenceHistogram image = some h ∧ h.length = HISTOGRAM_SIZE ∧
      (∀ v : Nat, v < HISTOGRAM_SIZE → h[v]? = some (image.count (v : Int))) ∧
      h.sum = IMAGE_SIZE := by
  have hroom : ∀ x ∈ zeroHistogram, x + image.length < UINT_RANGE := by
    intro x hx
    have hx0 : x = 0 := List.eq_of_mem_replicate hx
    rw [hx0, hlen]
    decide
  obtain ⟨h, hrun, hl, hcount, hsum⟩ :=
    countSamples_exact image zeroHistogram zeroHistogram_length hin hroom
  refine ⟨h, (referenceHistogram_eq_countSamples image hlen).trans hrun, hl, ?_, ?_⟩
  · intro v hv
    have hv2 : v < h.length := by rw [hl]; exact hv
    have := hcount v
    rw [zeroHistogram_getD, Nat.zero_add, List.getD_eq_getElem?_getD,
      List.getElem?_eq_getElem hv2, Option.getD_some] at this
    rw [List.getElem?_eq_getElem hv2, this]
  · rw [hsum, zeroHistogram_sum, hlen, Nat.zero_add]

/-- The counting loop keeps the number of counters. -/
theorem increment_length (hist hist1 : List Nat) (c : Int)
    (h : increment hist c = some hist1) : hist1.length = hist.length := by
  unfold increment at h
  split at h
  · cases h; simp
  · cases h

/-- A sample whose subscript falls outside the vector leaves the counting
steps without a defined result, wherever among the samples it stands. -/
theorem countSamples_undefined (image : List Int) (hist : List Nat) (c : Int)
    (hc : c ∈ image) (hout : hist.length ≤ toSizeT c) :
    countSamples image hist = none := by
  induction image generalizing hist with
  | nil => cases hc
  | cons d rest ih =>
    unfold countSamples
    cases hstep : increment hist d with
    | none => rfl
    | some hist1 =>
      have hl := increment_length hist hist1 d hstep
      rcases List.mem_cons.mp hc with hcd | hmem
      · subst hcd
        unfold increment at hstep
        rw [dif_neg (by omega)] at hstep
        cases hstep
      · exact ih hist1 hmem (by omega)

/-- Sample `i` of the generated image is the `i`-th random number, converted. -/
theorem mem_generateImage (charSigned : Bool) (rand : Nat → Nat) (i : Nat)
    (hi : i < IMAGE_SIZE) :
    toChar charSigned (rand i) ∈ generateImage charSigned rand := by
  unfold generateImage
  exact List.mem_map.mpr ⟨i, List.mem_range.mpr hi, rfl⟩

/-- With unsigned `char`, every generated sample lies in `0..255`. -/
theorem generateImage_unsigned_inRange (rand : Nat → Nat) :
    ∀ c ∈ generateImage false rand, 0 ≤ c ∧ c < 256 := by
  intro c hc
  unfold generateImage at hc
  obtain ⟨i, _, rfl⟩ := List.mem_map.mp hc
  simp only [toChar, Bool.false_and]
  constructor
  · exact Int.emod_nonneg _ (by norm_num)
  · exact Int.emod_lt_of_pos _ (by norm_num)

/-- The generated image has `IMAGE_SIZE` samples. -/
theorem generateImage_length (charSigned : Bool) (rand : Nat → Nat) :
    (generateImage charSigned rand).length = IMAGE_SIZE := by
  simp [generateImage]

/-- Where plain `char` is unsigned, the reference histogram of the image
that `main` generates is defined whatever `std::rand` returns, and counter
`v` is the exact number of samples equal to `v`. -/
theorem referenceHistogram_unsigned_exact (rand : Nat → Nat) :
    ∃ h, referenceHistogram (generateImage false rand) = some h ∧
      h.length = HISTOGRAM_SIZE ∧
      (∀ v : Nat, v < HISTOGRAM_SIZE →
        h[v]? = some ((generateImage false rand).count (v : Int))) ∧
      h.sum = IMAGE_SIZE :=
  referenceHistogram_exact _ (generateImage_length false rand)
    (generateImage_unsigned_inRange rand)

/-! ## Reference computation -/

/-- C1, at the failing input.  On a platform where plain `char` is signed,
take a run in which `std::rand` returns 1804289383 (low byte 0x67) except for
its second call, which returns 846930886 (low byte 0xC6).  Sample 0 is 103
and is counted; sample 1 is -58, its subscript is `2^64 - 58`, outside the
256 counters, and the reference computation has no defined result, so no
counter holds the number of occurrences of its value. -/
theorem referenceHistogram_undefined_on_signed_char :
    toChar true 1804289383 = 103 ∧ toChar true 846930886 = -58 ∧
      toSizeT (-58) = SIZE_RANGE - 58 ∧
      referenceHistogram
        (generateImage true (fun i => if i = 1 then 846930886 else 1804289383)) = none := by
  refine ⟨by decide, by decide, by decide, ?_⟩
  rw [referenceHistogram_eq_countSamples _ (generateImage_length true _)]
  exact countSamples_undefined _ zeroHistogram (toChar true 846930886)
    (mem_generateImage true (fun i => if i = 1 then 846930886 else 1804289383) 1
      (by decide))
    (by rw [zeroHistogram_length]; decide)

/-- C2, at the failing input.  The buffer holds the byte 0x67 everywhere
except for the byte 0xC6 at index 1 (`std::rand` returning 1804289383 and, at
its second call, 846930886): 4096 byte-valued samples.  Where plain `char` is
signed the byte 0xC6 is read as -58 and line 58 writes outside the counters:
there is no reference histogram whose counters add up to 4096.  Where plain
`char` is unsigned the same buffer gives counters that add up to 4096. -/
theorem referenceHistogram_sum_fails_on_signed_char :
    (∀ i : Nat, (if i = 1 then 846930886 else 1804289383) % 256 < 256) ∧
    toChar true 846930886 = -58 ∧
    (¬ ∃ h, referenceHistogram
        (generateImage true (fun i => if i = 1 then 846930886 else 1804289383)) = some h ∧
      h.sum = 4096) ∧
    ∃ h, referenceHistogram
        (generateImage false (fun i => if i = 1 then 846930886 else 1804289383)) = some h ∧
      h.sum = 4096 := by
  refine ⟨fun i => Nat.mod_lt _ (by decide), by decide, ?_, ?_⟩
  · have hnone : referenceHistogram
        (generateImage true (fun i => if i = 1 then 846930886 else 1804289383)) = none := by
      rw [referenceHistogram_eq_countSamples _ (generateImage_length true _)]
      exact countSamples_undefined _ zeroHistogram (toChar true 846930886)
        (mem_generateImage true (fun i => if i = 1 then 846930886 else 1804289383) 1
          (by decide))
        (by rw [zeroHistogram_length]; decide)
    rintro ⟨h, hh, _⟩
    rw [hnone] at hh
    cases hh
  · obtain ⟨h, hrun, _, _, hsum⟩ := referenceHistogram_unsigned_exact
      (fun i => if i = 1 then 846930886 else 1804289383)
    exact ⟨h, hrun, hsum⟩

/-- An image of `IMAGE_SIZE` samples whose values all equal `k`, with `k` in
`0..255`: the reference histogram is defined, counter `k` is `IMAGE_SIZE` and
every other counter is 0. -/
theorem referenceHistogram_constant_image (k : Nat) (image : List Int)
    (hk : k < 256)
    (hlen : image.length = IMAGE_SIZE)
    (hall : ∀ c ∈ image, c = (k : Int)) :
    ∃ h, referenceHistogram image = some h ∧ h.length = HISTOGRAM_SIZE ∧
      h[k]? = some 4096 ∧
      ∀ j : Nat, j < 256 → j ≠ k → h[j]? = some 0 := by
  obtain ⟨h, hrun, hl, hcount, _⟩ := referenceHistogram_exact image hlen
    (fun c hc => by rw [hall c hc]; omega)
  refine ⟨h, hrun, hl, ?_, ?_⟩
  · rw [hcount k hk]
    have : List.count (k : Int) image = image.length :=
      List.count_eq_length.mpr (fun c hc => (hall c hc).symm)
    rw [this, hlen]
    rfl
  · intro j hj hjk
    rw [hcount j hj]
    have : List.count (j : Int) image = 0 := by
      apply List.count_eq_zero.mpr
      intro hmem
      have := hall _ hmem
      omega
    rw [this]

/-- C3, at the failing input.  Take the byte value `k = 200` and the buffer
whose 4096 samples are all the byte 200 (`std::rand` returning 200 every
time).  Where plain `char` is signed every sample is read as -56, the first
counting step subscripts `source_hist_sw` at `2^64 - 56`, and the reference
computation has no defined result: counter 200 is not 4096.  Where plain
`char` is unsigned the same buffer gives 4096 in counter 200 and 0 in every
other counter. -/
theorem referenceHistogram_constant_image_fails_on_signed_char :
    (200 : Nat) < 256 ∧
    (∀ c ∈ generateImage true (fun _ => 200), c = toChar true 200) ∧
    toChar true 200 = -56 ∧ toSizeT (-56) = SIZE_RANGE - 56 ∧
    referenceHistogram (generateImage true (fun _ => 200)) = none ∧
    ∃ h, referenceHistogram (generateImage false (fun _ => 200)) = some h ∧
      h[200]? = some 4096 ∧ ∀ j : Nat, j < 256 → j ≠ 200 → h[j]? = some 0 := by
  have hsigned : ∀ c ∈ generateImage true (fun _ => 200), c = toChar true 200 := by
    intro c hc
    unfold generateImage at hc
    obtain ⟨i, _, rfl⟩ := List.mem_map.mp hc
    rfl
  have hunsigned : ∀ c ∈ generateImage false (fun _ => 200), c = ((200 : Nat) : Int) := by
    intro c hc
    unfold generateImage at hc
    obtain ⟨i, _, rfl⟩ := List.mem_map.mp hc
    rfl
  refine ⟨by decide, hsigned, by decide, by decide, ?_, ?_⟩
  · rw [referenceHistogram_eq_countSamples _ (generateImage_length true _)]
    exact countSamples_undefined _ zeroHistogram (toChar true 200)
      (mem_generateImage true (fun _ => 200) 0 (by decide))
      (by rw [zeroHistogram_length]; decide)
  · obtain ⟨h, hrun, _, h200, hrest⟩ := referenceHistogram_constant_image 200 _
      (by decide) (generateImage_length false _) hunsigned
    exact ⟨h, hrun, h200, hrest⟩

/-- C10, at the failing input.  On a platform where plain `char` is signed,
the `std::rand` result 846930886 (low byte 0xC6) is stored as the sample -58;
used as the subscript of `source_hist_sw` it becomes `2^64 - 58`, which is
not below `HISTOGRAM_SIZE`, and the increment has no defined result. -/
theorem signed_char_subscript_outside_histogram :
    toChar true 846930886 = -58 ∧
      toSizeT (toChar true 846930886) = 18446744073709551558 ∧
      ¬ toSizeT (toChar true 846930886) < HISTOGRAM_SIZE ∧
      increment zeroHistogram (toChar true 846930886) = none := by
  refine ⟨by decide, by decide, by decide, ?_⟩
  unfold increment
  rw [dif_neg]
  rw [zeroHistogram_length]
  decide

/-! ## The comparison loop -/

/-- Inside a vector of `HISTOGRAM_SIZE` counters the subscript reads the
counter, whatever lies past the end. -/
theorem subscript_inside (v : List Nat) (past : Nat → Option Nat) (i : Nat)
    (hv : v.length = HISTOGRAM_SIZE) (hi : i < HISTOGRAM_SIZE) :
    subscript v past i = v[i]? := by
  unfold subscript
  rw [if_pos (by rw [hv]; exact hi)]

/-- A stretch of `d` indices from `j` on at which both reads succeed with
equal values: the loop examines them all and goes on from `j + d`. -/
theorem compareLoop_equal_run (sw hw : List Nat) (mem : Beyond) (d : Nat) :
    ∀ (j n : Nat), d ≤ n →
      (∀ t, j ≤ t → t < j + d →
        ∃ x, subscript sw mem.sw t = some x ∧ subscript hw mem.hw t = some x) →
      compareLoop sw hw mem n j =
        ⟨List.range' j d ++ (compareLoop sw hw mem (n - d) (j + d)).examined,
          (compareLoop sw hw mem (n - d) (j + d)).result⟩ := by
  induction d with
  | zero => intro j n _ _; simp
  | succ d ih =>
    intro j n hn heq
    obtain ⟨m, rfl⟩ : ∃ m, n = m + 1 := ⟨n - 1, by omega⟩
    obtain ⟨x, hx1, hx2⟩ := heq j (Nat.le_refl j) (by omega)
    have hrest := ih (j + 1) m (by omega) (fun t h1 h2 => heq t (by omega) (by omega))
    have e1 : m + 1 - (d + 1) = m - d := by omega
    have e2 : j + (d + 1) = j + 1 + d := by omega
    rw [e1, e2]
    conv_lhs => unfold compareLoop
    simp only [hx1, hx2, ne_eq, not_true_eq_false, if_false]
    rw [hrest]
    simp [List.range'_succ]

/-- The loop at a first mismatch: `i` equal buckets are examined, then
bucket `i`, where the loop breaks. -/
theorem compareHistograms_mismatch (sw hw : List Nat) (mem : Beyond) (i a b : Nat)
    (hsw : sw.length = HISTOGRAM_SIZE) (hhw : hw.length = HISTOGRAM_SIZE)
    (hi : i < HISTOGRAM_SIZE)
    (ha : sw[i]? = some a) (hb : hw[i]? = some b) (hab : a ≠ b)
    (hmin : ∀ j, j < i → sw[j]? = hw[j]?) :
    compareHistograms sw hw mem = ⟨List.range (i + 1), ScanResult.mismatch i a b⟩ := by
  have hi2 : i < 256 := hi
  have hrun := compareLoop_equal_run sw hw mem i 0 IMAGE_SIZE
    (by unfold IMAGE_SIZE; omega) (fun t _ ht => by
      have ht2 : t < HISTOGRAM_SIZE := by unfold HISTOGRAM_SIZE; omega
      have ht3 : t < sw.length := by rw [hsw]; exact ht2
      rw [subscript_inside sw _ t hsw ht2, subscript_inside hw _ t hhw ht2,
        ← hmin t (by omega)]
      exact ⟨sw[t], List.getElem?_eq_getElem ht3, List.getElem?_eq_getElem ht3⟩)
  obtain ⟨m, hm⟩ : ∃ m, IMAGE_SIZE - i = m + 1 :=
    ⟨IMAGE_SIZE - i - 1, by unfold IMAGE_SIZE; omega⟩
  have hstep : compareLoop sw hw mem (IMAGE_SIZE - i) (0 + i)
      = ⟨[i], ScanResult.mismatch i a b⟩ := by
    rw [hm, Nat.zero_add]
    unfold compareLoop
    simp only [subscript_inside sw _ i hsw hi, subscript_inside hw _ i hhw hi, ha, hb]
    simp [hab]
  unfold compareHistograms
  rw [hrun, hstep]
  simp [List.range_eq_range', List.range'_concat]

/-- Two equal histograms: the first `HISTOGRAM_SIZE` iterations find no
mismatch and the loop goes on at index `HISTOGRAM_SIZE`, with
`IMAGE_SIZE - HISTOGRAM_SIZE` iterations left. -/
theorem compareHistograms_equal (sw : List Nat) (mem : Beyond)
    (hsw : sw.length = HISTOGRAM_SIZE) :
    compareHistograms sw sw mem =
      ⟨List.range HISTOGRAM_SIZE ++
          (compareLoop sw sw mem (IMAGE_SIZE - HISTOGRAM_SIZE) HISTOGRAM_SIZE).examined,
        (compareLoop sw sw mem (IMAGE_SIZE - HISTOGRAM_SIZE) HISTOGRAM_SIZE).result⟩ := by
  have hrun := compareLoop_equal_run sw sw mem HISTOGRAM_SIZE 0 IMAGE_SIZE
    (by decide) (fun t _ ht => by
      have ht2 : t < HISTOGRAM_SIZE := by omega
      have ht3 : t < sw.length := by rw [hsw]; exact ht2
      rw [subscript_inside sw _ t hsw ht2, subscript_inside sw _ t hsw ht2]
      exact ⟨sw[t], List.getElem?_eq_getElem ht3, List.getElem?_eq_getElem ht3⟩)
  unfold compareHistograms
  rw [hrun, Nat.zero_add, List.range_eq_range']

/-- Two equal histograms with nothing defined past the end: the loop stops
at index `HISTOGRAM_SIZE` on an undefined read. -/
theorem compareHistograms_equal_nothing (sw : List Nat)
    (hsw : sw.length = HISTOGRAM_SIZE) :
    compareHistograms sw sw Beyond.nothing =
      ⟨List.range (HISTOGRAM_SIZE + 1), ScanResult.undefinedRead HISTOGRAM_SIZE⟩ := by
  have htail : compareLoop sw sw Beyond.nothing (IMAGE_SIZE - HISTOGRAM_SIZE) HISTOGRAM_SIZE
      = ⟨[HISTOGRAM_SIZE], ScanResult.undefinedRead HISTOGRAM_SIZE⟩ := by
    have e : IMAGE_SIZE - HISTOGRAM_SIZE = 3839 + 1 := by decide
    rw [e]
    unfold compareLoop
    simp [subscript, hsw, Beyond.nothing]
  rw [compareHistograms_equal sw _ hsw, htail]
  simp [List.range_eq_range', List.range'_concat]

/-- A histogram compared with an equal one, both followed by readable
zero-filled storage: the loop runs through all `IMAGE_SIZE` indices and finds
no mismatch. -/
theorem compareHistograms_equal_zeros (sw : List Nat) :
    compareHistograms sw sw Beyond.zeros = ⟨List.range IMAGE_SIZE, ScanResult.allEqual⟩ := by
  have hrun := compareLoop_equal_run sw sw Beyond.zeros IMAGE_SIZE 0 IMAGE_SIZE
    (Nat.le_refl _) (fun t _ _ => by
      by_cases ht : t < sw.length
      · refine ⟨sw[t], ?_, ?_⟩ <;>
          simp only [subscript, if_pos ht, List.getElem?_eq_getElem ht]
      · refine ⟨0, ?_, ?_⟩ <;> simp only [subscript, if_neg ht, Beyond.zeros])
  unfold compareHistograms
  rw [hrun]
  simp [compareLoop, List.range_eq_range']

/-- Whatever the loop finds at index `i`, it has read there: with an
iteration left, `i` is among the examined indices. -/
theorem compareLoop_examines_current (sw hw : List Nat) (mem : Beyond) (n i : Nat) :
    i ∈ (compareLoop sw hw mem (n + 1) i).examined := by
  unfold compareLoop
  split
  · split <;> simp
  · simp

/-- From the end of a vector on, the subscript reads what lies past it. -/
theorem subscript_past_end (v : List Nat) (past : Nat → Option Nat) (i : Nat)
    (hi : v.length ≤ i) : subscript v past i = past i := by
  unfold subscript
  rw [if_neg (by omega)]

/-! ## Equivalence check -/

/-- C4, at the failing input.  Reference and device histogram are both the
histogram of an all-zero image (4096 in bucket 0, 0 elsewhere).  The loop
finds the 256 buckets equal and then evaluates `source_hist_sw[256]`: with
nothing defined past the end the check has no defined outcome (no verdict, no
exit status), and with readable storage that differs there it reports a
mismatch at index 256, prints "TEST FAILED" and returns `EXIT_FAILURE`. -/
theorem equivalenceCheck_equal_histograms_not_passed :
    compareHistograms (4096 :: List.replicate 255 0) (4096 :: List.replicate 255 0)
        Beyond.nothing = ⟨List.range 257, ScanResult.undefinedRead 256⟩ ∧
    equivalenceCheck (4096 :: List.replicate 255 0) (4096 :: List.replicate 255 0)
        Beyond.nothing = ⟨[], Status.undefined⟩ ∧
    equivalenceCheck (4096 :: List.replicate 255 0) (4096 :: List.replicate 255 0)
        ⟨fun _ => some 0, fun _ => some 1⟩ =
      ⟨[Event.print "Error: Result mismatch\n",
        Event.print "i = 256 CPU result = 0 Device result = 1\n",
        Event.print "TEST FAILED\n"], Status.exit EXIT_FAILURE⟩ := by
  have hlen : (4096 :: List.replicate 255 0).length = HISTOGRAM_SIZE := by
    rw [List.length_cons, List.length_replicate]; rfl
  have h1 := compareHistograms_equal_nothing (4096 :: List.replicate 255 0) hlen
  have h2 := compareHistograms_equal (4096 :: List.replicate 255 0)
    ⟨fun _ => some 0, fun _ => some 1⟩ hlen
  have htail : compareLoop (4096 :: List.replicate 255 0) (4096 :: List.replicate 255 0)
      ⟨fun _ => some 0, fun _ => some 1⟩ (IMAGE_SIZE - HISTOGRAM_SIZE) HISTOGRAM_SIZE
      = ⟨[256], ScanResult.mismatch 256 0 1⟩ := by
    have e : IMAGE_SIZE - HISTOGRAM_SIZE = 3839 + 1 := by decide
    rw [e]
    unfold compareLoop
    rw [subscript_past_end _ _ _ (by rw [hlen]), subscript_past_end _ _ _ (by rw [hlen])]
    simp [HISTOGRAM_SIZE]
  refine ⟨h1, ?_, ?_⟩
  · unfold equivalenceCheck
    rw [h1]
  · unfold equivalenceCheck
    rw [h2, htail]
    decide

/-- C5.  Two histograms of `HISTOGRAM_SIZE` counters whose smallest differing
index is `i`, with `a` the reference counter and `b` the device counter
there: the loop examines exactly the indices `0..i` and breaks at `i`; the
check prints the mismatch line naming `i`, `a` and `b` and no other index,
then "TEST FAILED", and `main` returns `EXIT_FAILURE`.  This holds whatever
lies past the end of the vectors. -/
theorem equivalenceCheck_first_mismatch (sw hw : List Nat) (mem : Beyond) (i a b : Nat)
    (hsw : sw.length = HISTOGRAM_SIZE) (hhw : hw.length = HISTOGRAM_SIZE)
    (hi : i < HISTOGRAM_SIZE)
    (ha : sw[i]? = some a) (hb : hw[i]? = some b) (hab : a ≠ b)
    (hmin : ∀ j, j < i → sw[j]? = hw[j]?) :
    compareHistograms sw hw mem = ⟨List.range (i + 1), ScanResult.mismatch i a b⟩ ∧
    equivalenceCheck sw hw mem =
      ⟨[Event.print "Error: Result mismatch\n",
        Event.print ("i = " ++ toString i ++ " CPU result = " ++ toString a
          ++ " Device result = " ++ toString b ++ "\n"),
        Event.print "TEST FAILED\n"], Status.exit EXIT_FAILURE⟩ := by
  have h := compareHistograms_mismatch sw hw mem i a b hsw hhw hi ha hb hab hmin
  refine ⟨h, ?_⟩
  unfold equivalenceCheck
  rw [h]

/-- C5 at the reference histogram with 16 in every bucket and a device
histogram that has 9 in bucket 5 instead. -/
theorem equivalenceCheck_first_mismatch_witness :
    (List.replicate 256 16).length = HISTOGRAM_SIZE ∧
    ((List.replicate 256 16).set 5 9).length = HISTOGRAM_SIZE ∧
    5 < HISTOGRAM_SIZE ∧
    (List.replicate 256 16)[5]? = some 16 ∧
    ((List.replicate 256 16).set 5 9)[5]? = some 9 ∧
    (16 : Nat) ≠ 9 ∧
    (∀ j, j < 5 → (List.replicate 256 16)[j]? = ((List.replicate 256 16).set 5 9)[j]?) ∧
    compareHistograms (List.replicate 256 16) ((List.replicate 256 16).set 5 9)
        Beyond.nothing = ⟨List.range (5 + 1), ScanResult.mismatch 5 16 9⟩ ∧
    equivalenceCheck (List.replicate 256 16) ((List.replicate 256 16).set 5 9)
        Beyond.nothing =
      ⟨[Event.print "Error: Result mismatch\n",
        Event.print ("i = " ++ toString 5 ++ " CPU result = " ++ toString 16
          ++ " Device result = " ++ toString 9 ++ "\n"),
        Event.print "TEST FAILED\n"], Status.exit EXIT_FAILURE⟩ :=
  have hsw : (List.replicate 256 16).length = HISTOGRAM_SIZE :=
    List.length_replicate 256 16
  have hhw : ((List.replicate 256 16).set 5 9).length = HISTOGRAM_SIZE := by
    rw [List.length_set]; exact hsw
  have ha : (List.replicate 256 16)[5]? = some 16 := by
    rw [List.getElem?_replicate, if_pos (by decide)]
  have hb : ((List.replicate 256 16).set 5 9)[5]? = some 9 := by
    rw [List.getElem?_set_self (by rw [hsw]; decide)]
  have hmin : ∀ j, j < 5 →
      (List.replicate 256 16)[j]? = ((List.replicate 256 16).set 5 9)[j]? := by
    intro j hj
    rw [List.getElem?_set_ne (by omega)]
  ⟨hsw, hhw, by decide, ha, hb, by decide, hmin,
    equivalenceCheck_first_mismatch _ _ Beyond.nothing 5 16 9 hsw hhw (by decide)
      ha hb (by decide) hmin⟩

/-- C9, at the failing input.  Reference and device histogram are both the
histogram of an all-zero image.  Whatever lies past the end of the vectors,
the loop evaluates `source_hist_sw[256] != source_hist_hw[256]`, an index
that is not below `HISTOGRAM_SIZE`; and when the storage past the end is
readable and equal (zeros) it finds no mismatch only after examining
`IMAGE_SIZE` = 4096 indices, not 256. -/
theorem compareHistograms_examines_past_end (mem : Beyond) :
    256 ∈ (compareHistograms (4096 :: List.replicate 255 0)
        (4096 :: List.replicate 255 0) mem).examined ∧
    ¬ 256 < HISTOGRAM_SIZE ∧
    compareHistograms (4096 :: List.replicate 255 0) (4096 :: List.replicate 255 0)
        Beyond.zeros = ⟨List.range 4096, ScanResult.allEqual⟩ := by
  have hlen : (4096 :: List.replicate 255 0).length = HISTOGRAM_SIZE := by
    rw [List.length_cons, List.length_replicate]; rfl
  refine ⟨?_, by decide, compareHistograms_equal_zeros _⟩
  rw [compareHistograms_equal _ mem hlen]
  apply List.mem_append_right
  have e : IMAGE_SIZE - HISTOGRAM_SIZE = 3839 + 1 := by decide
  rw [e]
  exact compareLoop_examines_current _ _ mem 3839 256

/-! ## Device acquisition -/

/-- A line that starts with the text of line 74 is not a verdict line. -/
theorem trying_line_not_verdict (i : Nat) (name : String) :
    (Event.print ("Trying to program device[" ++ toString i ++ "]: " ++ name
      ++ "\n")).afterAcquisition = false := by
  have h : ∀ t : String, t.data.head? = some 'T' → t.data.tail.head? = some 'E' →
      "Trying to program device[" ++ toString i ++ "]: " ++ name ++ "\n" ≠ t := by
    intro t _ h2 heq
    rw [← heq] at h2
    simp [String.data_append] at h2
  simp only [Event.afterAcquisition, Bool.or_eq_false_iff, beq_eq_false_iff_ne]
  exact ⟨h _ (by decide) (by decide), h _ (by decide) (by decide)⟩

/-- A line that starts with the text of line 77 is not a verdict line. -/
theorem failed_line_not_verdict (i : Nat) :
    (Event.print ("Failed to program device[" ++ toString i
      ++ "] with xclbin file!\n")).afterAcquisition = false := by
  have h : ∀ t : String, t.data.head? = some 'T' →
      "Failed to program device[" ++ toString i ++ "] with xclbin file!\n" ≠ t := by
    intro t h1 heq
    rw [← heq] at h1
    simp [String.data_append] at h1
  simp only [Event.afterAcquisition, Bool.or_eq_false_iff, beq_eq_false_iff_ne]
  exact ⟨h _ (by decide), h _ (by decide)⟩

/-- A line that starts with the text of line 79 is not a verdict line. -/
theorem success_line_not_verdict (i : Nat) :
    (Event.print ("Device[" ++ toString i
      ++ "]: program successful!\n")).afterAcquisition = false := by
  have h : ∀ t : String, t.data.head? = some 'T' →
      "Device[" ++ toString i ++ "]: program successful!\n" ≠ t := by
    intro t h1 heq
    rw [← heq] at h1
    simp [String.data_append] at h1
  simp only [Event.afterAcquisition, Bool.or_eq_false_iff, beq_eq_false_iff_ne]
  exact ⟨h _ (by decide), h _ (by decide)⟩

/-- The acquisition loop allocates no buffer, makes no call of lines 93-112
and prints no verdict. -/
theorem acquireLoop_no_later_event (ds : List Device) :
    ∀ (i : Nat), ∀ e ∈ (acquireLoop ds i).1, e.afterAcquisition = false := by
  induction ds with
  | nil => intro i e he; simp [acquireLoop] at he
  | cons d rest ih =>
    intro i
    have t1 := trying_line_not_verdict i d.name
    have t2 := failed_line_not_verdict i
    have t3 := success_line_not_verdict i
    have t4 := ih (i + 1)
    have c1 : (Event.createContext i).afterAcquisition = false := rfl
    have c2 : (Event.createQueue i).afterAcquisition = false := rfl
    have c3 : (Event.createProgram i).afterAcquisition = false := rfl
    have c4 : (Event.createKernel i).afterAcquisition = false := rfl
    have c5 : Event.checkFailed.afterAcquisition = false := rfl
    unfold acquireLoop
    cases hc : d.contextOk <;> cases hq : d.queueOk <;> cases hp : d.programOk <;>
      cases hk : d.kernelOk <;>
      simp only [oclCheck, Bool.not_true, Bool.not_false, if_true, if_false,
        Bool.false_eq_true, List.mem_append, List.mem_cons, List.mem_singleton,
        List.not_mem_nil, or_false, or_imp, forall_and, forall_eq, List.cons_append,
        List.nil_append, List.append_assoc] <;>
      simp only [t1, t2, t3, c1, c2, c3, c4, c5, and_self, true_and] <;>
      (try exact t4)

/-- Programming attempts of a trace put together from two parts. -/
theorem programmingAttempts_append (s t : List Event) :
    programmingAttempts (s ++ t) = programmingAttempts s ++ programmingAttempts t := by
  induction s with
  | nil => rfl
  | cons e rest ih => cases e <;> simp [programmingAttempts, ih]

/-- The loop started at index `i`, when every checked call inside it
succeeds: programming is attempted on the devices `i, i+1, ...` in this
order, up to and including the first one that programs successfully, and the
loop ends there with `valid_device` set, or after the last device without. -/
theorem acquireLoop_from (ds : List Device) :
    ∀ (i : Nat),
      (∀ d ∈ ds, d.contextOk = true ∧ d.queueOk = true ∧ d.kernelOk = true) →
      programmingAttempts (acquireLoop ds i).1 =
          List.range' i (min (ds.findIdx (fun d => d.programOk) + 1) ds.length) ∧
        (acquireLoop ds i).2 =
          if ds.findIdx (fun d => d.programOk) < ds.length
          then Acquired.valid (i + ds.findIdx (fun d => d.programOk))
          else Acquired.noDevice := by
  induction ds with
  | nil => intro i _; simp [acquireLoop, programmingAttempts]
  | cons d rest ih =>
    intro i H
    obtain ⟨hc, hq, hk⟩ := H d (List.mem_cons_self _ _)
    obtain ⟨ih1, ih2⟩ := ih (i + 1) (fun x hx => H x (List.mem_cons_of_mem _ hx))
    unfold acquireLoop
    cases hp : d.programOk
    · have e : min (rest.findIdx (fun d => d.programOk) + 1 + 1) (rest.length + 1)
          = min (rest.findIdx (fun d => d.programOk) + 1) rest.length + 1 := by omega
      simp only [hc, hq, oclCheck, Bool.not_true, Bool.not_false, if_true, if_false,
        Bool.false_eq_true, List.findIdx_cons, hp, cond_false, List.length_cons,
        Nat.add_lt_add_iff_right, ih2, e, List.range'_succ]
      constructor
      · simp [programmingAttempts, programmingAttempts_append, ih1]
      · split <;> simp; omega
    · simp [hc, hq, hk, oclCheck, List.findIdx_cons, hp, programmingAttempts]

/-- One pass through the loop body for a device that fails to program: the
failure is printed and the loop goes on with the next index. -/
theorem acquireLoop_cons_failed (d : Device) (rest : List Device) (i : Nat)
    (hc : d.contextOk = true) (hq : d.queueOk = true) (hp : d.programOk = false) :
    acquireLoop (d :: rest) i =
      (Event.createContext i :: Event.createQueue i ::
        Event.print ("Trying to program device[" ++ toString i ++ "]: " ++ d.name ++ "\n") ::
        Event.createProgram i ::
        Event.print ("Failed to program device[" ++ toString i ++ "] with xclbin file!\n") ::
        (acquireLoop rest (i + 1)).1, (acquireLoop rest (i + 1)).2) := by
  conv_lhs => unfold acquireLoop
  simp [hc, hq, hp, oclCheck]

/-- Devices that fail to program at the head of the list: the loop passes
over them and goes on with the rest of the list. -/
theorem acquireLoop_append_failed (fails rest : List Device) :
    ∀ (i : Nat),
      (∀ d ∈ fails, d.contextOk = true ∧ d.queueOk = true ∧ d.programOk = false) →
      acquireLoop (fails ++ rest) i =
        ((acquireLoop fails i).1 ++ (acquireLoop rest (i + fails.length)).1,
          (acquireLoop rest (i + fails.length)).2) := by
  induction fails with
  | nil => intro i _; simp [acquireLoop]
  | cons d more ih =>
    intro i H
    obtain ⟨hc, hq, hp⟩ := H d (List.mem_cons_self _ _)
    have hrest := ih (i + 1) (fun x hx => H x (List.mem_cons_of_mem _ hx))
    have e : i + (more.length + 1) = i + 1 + more.length := by omega
    rw [List.cons_append, List.length_cons, e,
      acquireLoop_cons_failed d (more ++ rest) i hc hq hp,
      acquireLoop_cons_failed d more i hc hq hp, hrest]
    simp

/-- Devices that all fail to program: the loop ends without a valid device. -/
theorem acquireLoop_all_failed (fails : List Device) (i : Nat)
    (H : ∀ d ∈ fails, d.contextOk = true ∧ d.queueOk = true ∧ d.programOk = false) :
    (acquireLoop fails i).2 = Acquired.noDevice := by
  have h := acquireLoop_append_failed fails [] i H
  rw [List.append_nil] at h
  rw [h]
  rfl

/-- How the loop ends, by the outcome of the calls on its first device. -/
theorem acquireLoop_cons_end (d : Device) (rest : List Device) (i : Nat) :
    (acquireLoop (d :: rest) i).2 =
      if d.contextOk = false then Acquired.aborted
      else if d.queueOk = false then Acquired.aborted
      else if d.programOk = false then (acquireLoop rest (i + 1)).2
      else if d.kernelOk = false then Acquired.aborted
      else Acquired.valid i := by
  conv_lhs => unfold acquireLoop
  cases d.contextOk <;> cases d.queueOk <;> cases d.programOk <;> cases d.kernelOk <;>
    simp [oclCheck]

/-- Whether the loop ends with a valid device, without one, or in a failed
check does not depend on the index it starts from. -/
theorem acquireLoop_end_shift (ds : List Device) :
    ∀ (i j : Nat),
      (acquireLoop ds i).2 = Acquired.aborted ∧ (acquireLoop ds j).2 = Acquired.aborted ∨
      (acquireLoop ds i).2 = Acquired.noDevice ∧ (acquireLoop ds j).2 = Acquired.noDevice ∨
      (∃ a, (acquireLoop ds i).2 = Acquired.valid a) ∧
        ∃ b, (acquireLoop ds j).2 = Acquired.valid b := by
  induction ds with
  | nil => intro i j; simp [acquireLoop]
  | cons d rest ih =>
    intro i j
    have := ih (i + 1) (j + 1)
    rw [acquireLoop_cons_end d rest i, acquireLoop_cons_end d rest j]
    cases d.contextOk <;> cases d.queueOk <;> cases d.programOk <;>
      cases d.kernelOk <;> simp <;> exact this

/-! ## The program as a whole -/

/-- With one argument and a defined reference histogram, `main` generates
the test data and goes on with lines 60-128. -/
theorem main_of_reference (prog file : String) (env : Env) (sw : List Nat)
    (href : referenceHistogram (generateImage env.charSigned env.rand) = some sw) :
    main prog [file] env =
      ⟨Event.generate :: (hostCode file sw env).trace, (hostCode file sw env).status⟩ := by
  unfold main
  simp only
  rw [href]

/-- Lines 60-88 when the loop ends without a valid device: the failure is
printed and the process exits with failure status. -/
theorem hostCode_noDevice (file : String) (sw : List Nat) (env : Env)
    (hend : (acquireLoop env.devices 0).2 = Acquired.noDevice) :
    hostCode file sw env =
      ⟨Event.getDevices :: Event.readBinary file :: (acquireLoop env.devices 0).1 ++
          [Event.print "Failed to program any device found, exit!\n"],
        Status.exit EXIT_FAILURE⟩ := by
  unfold hostCode
  simp [hend]

/-- Reference histogram of the all-zero image: 4096 in bucket 0. -/
theorem referenceHistogram_zero_image (charSigned : Bool) :
    referenceHistogram (generateImage charSigned (fun _ => 0))
      = some (4096 :: List.replicate 255 0) := by
  have hall : ∀ c ∈ generateImage charSigned (fun _ => 0), c = 0 := by
    intro c hc
    unfold generateImage at hc
    obtain ⟨i, _, rfl⟩ := List.mem_map.mp hc
    show toChar charSigned ((0 : Nat) : Int) = 0
    cases charSigned <;> rfl
  obtain ⟨h, hrun, hl, hcount, _⟩ := referenceHistogram_exact _
    (generateImage_length charSigned _) (fun c hc => by rw [hall c hc]; decide)
  refine hrun.trans (congrArg some ?_)
  apply List.ext_getElem?
  intro n
  by_cases hn : n < HISTOGRAM_SIZE
  · rw [hcount n hn]
    cases n with
    | zero =>
      have : List.count ((0 : Nat) : Int) (generateImage charSigned (fun _ => 0))
          = (generateImage charSigned (fun _ => 0)).length :=
        List.count_eq_length.mpr (fun c hc => (hall c hc).symm)
      rw [this, generateImage_length, List.getElem?_cons_zero]
      rfl
    | succ m =>
      have : List.count ((m + 1 : Nat) : Int) (generateImage charSigned (fun _ => 0)) = 0 := by
        apply List.count_eq_zero.mpr
        intro hmem
        have := hall _ hmem
        omega
      have hm : m < 255 := by unfold HISTOGRAM_SIZE at hn; omega
      rw [this, List.getElem?_cons_succ, List.getElem?_replicate, if_pos hm]
  · have h1 : h.length ≤ n := by rw [hl]; omega
    have h2 : (4096 :: List.replicate 255 0).length ≤ n := by
      rw [List.length_cons, List.length_replicate]; unfold HISTOGRAM_SIZE at hn; omega
    rw [List.getElem?_eq_none h1, List.getElem?_eq_none h2]

/-- C6.  Started with any number of arguments other than one (`argc` other
than 2), `main` prints the usage line and returns `EXIT_FAILURE`, and does
nothing else: no test data is generated and no call of the accelerator
runtime is made. -/
theorem main_usage (prog : String) (args : List String) (env : Env)
    (hargc : args.length + 1 ≠ 2) :
    main prog args env =
      ⟨[Event.print ("Usage: " ++ prog ++ " <XCLBIN File>\n")], Status.exit EXIT_FAILURE⟩ := by
  unfold main
  split
  · simp at hargc
  · rfl

/-- C6 with no argument and with two arguments. -/
theorem main_usage_witness :
    ([] : List String).length + 1 ≠ 2 ∧
    main "host" []
        ⟨true, fun i => i, [⟨"card0", true, true, true, true⟩], fun _ => true,
          fun _ => 0, Beyond.nothing⟩ =
      ⟨[Event.print ("Usage: " ++ "host" ++ " <XCLBIN File>\n")], Status.exit EXIT_FAILURE⟩ ∧
    ["hist.xclbin", "extra"].length + 1 ≠ 2 ∧
    main "host" ["hist.xclbin", "extra"]
        ⟨true, fun i => i, [⟨"card0", true, true, true, true⟩], fun _ => true,
          fun _ => 0, Beyond.nothing⟩ =
      ⟨[Event.print ("Usage: " ++ "host" ++ " <XCLBIN File>\n")], Status.exit EXIT_FAILURE⟩ :=
  ⟨by decide, main_usage "host" [] _ (by decide),
    by decide, main_usage "host" ["hist.xclbin", "extra"] _ (by decide)⟩

/-- C7.  When every checked call inside the loop succeeds, so that a device
either programs or fails to: programming is attempted on the devices in index
order 0, 1, 2, ..., through the failing ones up to and including the first
device that programs successfully (`findIdx`) and on no later one; the loop
ends there with that device valid, or past the last device with none.  When
no device programs successfully (the empty list included), `main` prints the
failure line and exits with `EXIT_FAILURE`, and its trace holds no buffer
allocation, no other call of lines 93-112 and no verdict of a comparison. -/
theorem acquireLoop_tries_devices_in_order (env : Env)
    (hchecks : ∀ d ∈ env.devices,
      d.contextOk = true ∧ d.queueOk = true ∧ d.kernelOk = true) :
    programmingAttempts (acquireLoop env.devices 0).1 =
        List.range (min (env.devices.findIdx (fun d => d.programOk) + 1) env.devices.length) ∧
    (acquireLoop env.devices 0).2 =
        (if env.devices.findIdx (fun d => d.programOk) < env.devices.length
          then Acquired.valid (env.devices.findIdx (fun d => d.programOk))
          else Acquired.noDevice) ∧
    ((∀ d ∈ env.devices, d.programOk = false) →
      ∀ (prog file : String) (sw : List Nat),
        referenceHistogram (generateImage env.charSigned env.rand) = some sw →
        main prog [file] env =
            ⟨Event.generate :: Event.getDevices :: Event.readBinary file ::
                (acquireLoop env.devices 0).1 ++
                [Event.print "Failed to program any device found, exit!\n"],
              Status.exit EXIT_FAILURE⟩ ∧
          ∀ e ∈ (main prog [file] env).trace, e.afterAcquisition = false) := by
  obtain ⟨h1, h2⟩ := acquireLoop_from env.devices 0 hchecks
  refine ⟨?_, ?_, ?_⟩
  · rw [h1, List.range_eq_range']
  · rw [h2, Nat.zero_add]
  · intro hnone prog file sw href
    have hend : (acquireLoop env.devices 0).2 = Acquired.noDevice :=
      acquireLoop_all_failed env.devices 0
        (fun d hd => ⟨(hchecks d hd).1, (hchecks d hd).2.1, hnone d hd⟩)
    have hmain : main prog [file] env =
        ⟨Event.generate :: Event.getDevices :: Event.readBinary file ::
            (acquireLoop env.devices 0).1 ++
            [Event.print "Failed to program any device found, exit!\n"],
          Status.exit EXIT_FAILURE⟩ := by
      have hm := main_of_reference prog file env sw href
      rw [hostCode_noDevice file sw env hend] at hm
      exact hm
    refine ⟨hmain, ?_⟩
    rw [hmain]
    intro e he
    simp only [List.mem_cons, List.mem_append, List.mem_singleton, List.not_mem_nil,
      or_false] at he
    rcases he with (he | he | he | he) | he
    · rw [he]; rfl
    · rw [he]; rfl
    · rw [he]; rfl
    · exact acquireLoop_no_later_event env.devices 0 e he
    · rw [he]; decide

/-- C7 on the device list failing, working, working (only devices 0 and 1
are tried), and on a list of two failing devices. -/
theorem acquireLoop_tries_devices_in_order_witness :
    (∀ d ∈ (Env.sample [Device.failing "card0", Device.working "card1",
        Device.working "card2"]).devices,
      d.contextOk = true ∧ d.queueOk = true ∧ d.kernelOk = true) ∧
    programmingAttempts (acquireLoop [Device.failing "card0", Device.working "card1",
        Device.working "card2"] 0).1 = [0, 1] ∧
    (acquireLoop [Device.failing "card0", Device.working "card1",
        Device.working "card2"] 0).2 = Acquired.valid 1 ∧
    (∀ d ∈ (Env.sample [Device.failing "card0", Device.failing "card1"]).devices,
      d.contextOk = true ∧ d.queueOk = true ∧ d.kernelOk = true) ∧
    (∀ d ∈ (Env.sample [Device.failing "card0", Device.failing "card1"]).devices,
      d.programOk = false) ∧
    (main "host" ["hist.xclbin"]
      (Env.sample [Device.failing "card0", Device.failing "card1"])).status
        = Status.exit EXIT_FAILURE ∧
    ∀ e ∈ (main "host" ["hist.xclbin"]
      (Env.sample [Device.failing "card0", Device.failing "card1"])).trace,
        e.afterAcquisition = false :=
  have hA : ∀ d ∈ (Env.sample [Device.failing "card0", Device.working "card1",
      Device.working "card2"]).devices,
      d.contextOk = true ∧ d.queueOk = true ∧ d.kernelOk = true := by
    simp [Env.sample, Device.failing, Device.working]
  have hB : ∀ d ∈ (Env.sample [Device.failing "card0", Device.failing "card1"]).devices,
      d.contextOk = true ∧ d.queueOk = true ∧ d.kernelOk = true := by
    simp [Env.sample, Device.failing]
  have hnone : ∀ d ∈ (Env.sample [Device.failing "card0", Device.failing "card1"]).devices,
      d.programOk = false := by
    simp [Env.sample, Device.failing]
  have hrun := (acquireLoop_tries_devices_in_order _ hB).2.2 hnone "host" "hist.xclbin"
    (4096 :: List.replicate 255 0) (referenceHistogram_zero_image true)
  ⟨hA, (acquireLoop_tries_devices_in_order _ hA).1.trans (by decide),
    (acquireLoop_tries_devices_in_order _ hA).2.1.trans (by decide),
    hB, hnone, congrArg Outcome.status hrun.1, hrun.2⟩

end Host
